import Mathlib

/-!
Verification of the SQL Server backup strategy
(`src/strategies/sqlserver_strategy.py`) of DailyBackupDatabase.

The Python strategy generates a replayable SQL script: header, schema DDL,
data INSERT batches, then extras (defaults, indexes, procedures, foreign
keys, triggers).  We embed the pure core of each emitter: row values become
a tagged union mirroring the `isinstance` dispatch of `_generate_data`,
statements written to the script become an inductive `Stmt`, and the
orchestrating `backup` method becomes a pure function over an environment
that records the outcome of each catalog query (`none` models the query
raising an exception, which the Python generators catch).
-/

namespace DailyBackup

/-- The single-quote character (code 39), used by the string-literal
encoder `v.replace` in `_generate_data`. -/
def quoteChar : Char := Char.ofNat 39

/-- A one-character string holding a single quote. -/
def sq : String := ⟨[quoteChar]⟩

/-- `escQ` is the character-level embedding of Python
`v.replace(sq, sq+sq)` from `_generate_data` line 299: every embedded
single quote is doubled, every other character is kept unchanged. -/
def escQ : List Char → List Char
  | [] => []
  | c :: cs => if c = quoteChar then quoteChar :: quoteChar :: escQ cs else c :: escQ cs

/-- String wrapper of `escQ`. -/
def escapeQuotes (s : String) : String := ⟨escQ s.data⟩

/-- Lowercase hexadecimal digit table, as used by Python `bytes.hex()`. -/
def hexDigit (n : Nat) : Char := "0123456789abcdef".data.getD n 'x'

/-- Character-level embedding of Python `bytes.hex()`: two lowercase hex
digits per byte, high nibble first.  A byte is a `Nat` below 256. -/
def hexChars : List Nat → List Char
  | [] => []
  | b :: bs => hexDigit (b / 16) :: hexDigit (b % 16) :: hexChars bs

/-- String wrapper of `hexChars`. -/
def hexString (bs : List Nat) : String := ⟨hexChars bs⟩

/-- One row value as seen by `_generate_data` (lines 295-307).  The
constructors mirror, in order, the `isinstance` dispatch of the Python
loop: `None`, `str`, objects with an `isoformat` attribute (temporal
values, carried here by their `str(v)` rendering), `bytes`/`bytearray`,
`bool`, `int`, other recognized scalars (`float`, `Decimal`, carried by
their `str(v)` rendering), and any value of a type none of the
`isinstance` checks recognize (also carried by its `str(v)` rendering,
because the Python `else` branch applies `str` to it). -/
inductive Value where
  | null
  | str (s : String)
  | temporal (rendered : String)
  | bytes (bs : List Nat)
  | bool (b : Bool)
  | int (n : Int)
  | scalar (rendered : String)
  | unknown (rendered : String)
  deriving DecidableEq

/-- The value-to-literal encoder of `_generate_data` lines 295-307:
`NULL` for `None`, quote-doubled single-quoted text for `str`,
`str(v)` in single quotes for temporal values, `0x`-hex (or `NULL` when
empty, since empty bytes are falsy in Python) for binary, `1`/`0` for
booleans, and the default string rendering, unquoted, for everything
else. -/
def renderValue : Value → String
  | .null => "NULL"
  | .str s => sq ++ escapeQuotes s ++ sq
  | .temporal r => sq ++ r ++ sq
  | .bytes bs => if bs.isEmpty then "NULL" else "0x" ++ hexString bs
  | .bool b => if b then "1" else "0"
  | .int n => toString n
  | .scalar r => r
  | .unknown r => r

/-- `", ".join(f"[\x7bc\x7d]" for c in col_names)` from `_generate_data`
line 309: the explicit bracketed column list of an INSERT. -/
def insertCols (colNames : List String) : String :=
  String.intercalate ", " (colNames.map (fun c => "[" ++ c ++ "]"))

/-- `", ".join(values)` from `_generate_data` line 310: the encoded value
list of an INSERT. -/
def insertVals (row : List Value) : String :=
  String.intercalate ", " (row.map renderValue)

/-- Modelled from the spec: the body of a "standard SQL literal parser"
(spec §8, first testable property).  After the opening quote has been
consumed, a doubled quote denotes one literal quote, a single quote
followed by end of input closes the literal, any other character stands
for itself; a lone quote with trailing input, or missing terminator, is
a parse error. -/
def parseQuotedBody : List Char → Option (List Char)
  | [] => none
  | c :: rest =>
    if c = quoteChar then
      match rest with
      | [] => some []
      | c2 :: rest2 =>
        if c2 = quoteChar then (parseQuotedBody rest2).map (fun t => quoteChar :: t)
        else none
    else (parseQuotedBody rest).map (fun t => c :: t)

/-- Modelled from the spec: a standard SQL string-literal reader — an
opening single quote, then `parseQuotedBody`. -/
def parseSqlStringLit (s : String) : Option String :=
  match s.data with
  | [] => none
  | c :: rest => if c = quoteChar then (parseQuotedBody rest).map (fun t => (⟨t⟩ : String)) else none

lemma parseQuotedBody_escQ (l : List Char) :
    parseQuotedBody (escQ l ++ [quoteChar]) = some l := by
  induction l with
  | nil => simp [escQ, parseQuotedBody]
  | cons c cs ih =>
    by_cases h : c = quoteChar
    · subst h
      simp [escQ, parseQuotedBody, ih]
    · rw [escQ]
      simp only [if_neg h]
      rw [List.cons_append, parseQuotedBody.eq_def]
      simp [h, ih]

lemma escQ_eq_join (l : List Char) :
    escQ l = (l.map (fun c => if c = quoteChar then [quoteChar, quoteChar] else [c])).flatten := by
  induction l with
  | nil => simp [escQ]
  | cons c cs ih =>
    by_cases h : c = quoteChar
    · subst h; simp [escQ, ih]
    · simp [escQ, h, ih]

/-- Modelled from the spec: hexadecimal digit value — `0`-`9` and the
lowercase letters `a`-`f`. -/
def hexVal (c : Char) : Option Nat :=
  if 48 ≤ c.toNat ∧ c.toNat ≤ 57 then some (c.toNat - 48)
  else if 97 ≤ c.toNat ∧ c.toNat ≤ 102 then some (c.toNat - 87)
  else none

/-- Modelled from the spec: decoding a hex rendering back into bytes,
two digits per byte. -/
def hexDecode : List Char → Option (List Nat)
  | [] => some []
  | [_] => none
  | h :: l :: rest =>
    match hexVal h, hexVal l, hexDecode rest with
    | some hv, some lv, some tail => some ((hv * 16 + lv) :: tail)
    | _, _, _ => none

lemma hexVal_hexDigit (n : Nat) (h : n < 16) : hexVal (hexDigit n) = some n := by
  interval_cases n <;> decide

lemma hexDigit_lower (n : Nat) (h : n < 16) :
    (48 ≤ (hexDigit n).toNat ∧ (hexDigit n).toNat ≤ 57) ∨
    (97 ≤ (hexDigit n).toNat ∧ (hexDigit n).toNat ≤ 102) := by
  interval_cases n <;> decide

lemma hexDecode_hexChars (bs : List Nat) (h : ∀ b ∈ bs, b < 256) :
    hexDecode (hexChars bs) = some bs := by
  induction bs with
  | nil => simp [hexChars, hexDecode]
  | cons b rest ih =>
    have hb : b < 256 := h b (List.mem_cons_self _ _)
    have hhi : b / 16 < 16 := Nat.div_lt_of_lt_mul (by omega)
    have hlo : b % 16 < 16 := Nat.mod_lt _ (by omega)
    have hrest := ih (fun x hx => h x (List.mem_cons_of_mem _ hx))
    simp [hexChars, hexDecode, hexVal_hexDigit _ hhi, hexVal_hexDigit _ hlo, hrest]
    omega

/-- One row of the column query of `_generate_schema` (lines 155-167):
name, `TYPE_NAME(user_type_id)`, `max_length`, `precision`, `scale`,
`is_nullable`, `is_identity`.  The query never selects the seed or
increment values that `sys.identity_columns` reports for identity
columns. -/
structure ColumnMeta where
  name : String
  typeName : String
  maxLength : Int
  precision : Nat
  scale : Nat
  isNullable : Bool
  isIdentity : Bool
  deriving DecidableEq

/-- The type rendering of `_generate_schema` lines 176-183: sized
character/binary types print `max_length` (or `MAX` for the `-1`
sentinel), national character types halve the byte length, exact
numerics print precision and scale, and every other type prints its bare
name. -/
def typeStr (c : ColumnMeta) : String :=
  if c.typeName = "varchar" ∨ c.typeName = "char" ∨ c.typeName = "varbinary" ∨ c.typeName = "binary" then
    c.typeName ++ "(" ++ (if c.maxLength = -1 then "MAX" else toString c.maxLength) ++ ")"
  else if c.typeName = "nvarchar" ∨ c.typeName = "nchar" then
    c.typeName ++ "(" ++ (if c.maxLength = -1 then "MAX" else toString (c.maxLength / 2)) ++ ")"
  else if c.typeName = "decimal" ∨ c.typeName = "numeric" then
    c.typeName ++ "(" ++ toString c.precision ++ "," ++ toString c.scale ++ ")"
  else c.typeName

/-- `_generate_schema` line 185: the identity annotation is the constant
text ` IDENTITY(1,1)` whenever `is_identity` is set, else empty. -/
def identityStr (c : ColumnMeta) : String :=
  if c.isIdentity then " IDENTITY(1,1)" else ""

/-- `_generate_schema` line 186: nullability annotation. -/
def nullStr (c : ColumnMeta) : String :=
  if c.isNullable then " NULL" else " NOT NULL"

/-- One column line of the CREATE TABLE body, `_generate_schema`
line 189; `comma` is `","` for all but the last column. -/
def columnLine (c : ColumnMeta) (comma : String) : String :=
  "    [" ++ c.name ++ "] " ++ typeStr c ++ identityStr c ++ nullStr c ++ comma

/-- All column lines of one table, with a trailing comma on every line
but the last (`_generate_schema` lines 173-189). -/
def columnLines : List ColumnMeta → List String
  | [] => []
  | [c] => [columnLine c ""]
  | c :: rest => columnLine c "," :: columnLines rest

/-- One table of the schema phase: the two-part name returned by the
tables query (lines 132-138), its columns, and the primary-key row of
the `FOR XML PATH` query (lines 194-211) — constraint name and
aggregated column list, where an SQL `NULL` column list is carried as
the empty string (the code guards with `if pk and pk[1]`). -/
structure TableInfo where
  schemaName : String
  tableName : String
  columns : List ColumnMeta
  primaryKey : Option (String × String)
  deriving DecidableEq

/-- One statement appended to the output script.  Each constructor
stands for one of the `f.write` calls of the strategy that emits a
complete script element, carrying the data interpolated into the
corresponding format string. -/
inductive Stmt where
  | header (databaseName host : String)
  | useDb (databaseName : String)
  | sectionBanner (title : String)
  | tableComment (schemaName tableName : String)
  | dropTableGuard (schemaName tableName : String)
  | createTable (schemaName tableName : String) (colLines : List String)
  | addPrimaryKey (schemaName tableName pkName cols : String)
  | dataComment (schemaName tableName : String) (total : Nat)
  | setIdentityInsert (schemaName tableName : String) (isOn : Bool)
  | insertRow (schemaName tableName : String) (cols vals : String)
  | go
  | addDefault (defName schemaName tableName definition colName : String)
  | createIndex (idxName schemaName tableName cols : String)
  | dropProcGuard (schemaName procName : String)
  | rawDefinition (text : String)
  | addForeignKey (fkName schemaName tableName parentCols refSchema refTable refCols : String)
  | dropTriggerGuard (schemaName triggerName : String)
  deriving DecidableEq

/-- The statements `_generate_schema` writes for one table (lines
149-219): table comment, drop-if-exists guard, CREATE TABLE with the
column lines, then the primary-key constraint when the catalog returned
one with a non-empty column list. -/
def schemaTableStmts (t : TableInfo) : List Stmt :=
  [Stmt.tableComment t.schemaName t.tableName,
   Stmt.dropTableGuard t.schemaName t.tableName,
   Stmt.createTable t.schemaName t.tableName (columnLines t.columns)]
  ++ (match t.primaryKey with
      | some (pkName, cols) =>
        if cols = "" then [] else [Stmt.addPrimaryKey t.schemaName t.tableName pkName cols]
      | none => [])

/-- `_generate_schema` (lines 122-227) as a function of the outcome of
its tables query: the section banner is written before the query, so a
failing query (`none`, modelling a raised exception caught at line 223)
still leaves the banner in the file and returns `False`; otherwise every
table's DDL follows and the phase returns `True`. -/
def generate_schema (q : Option (List TableInfo)) : Bool × List Stmt :=
  match q with
  | none => (false, [Stmt.sectionBanner "ESTRUCTURA DE LA BASE DE DATOS"])
  | some tables =>
      (true, Stmt.sectionBanner "ESTRUCTURA DE LA BASE DE DATOS" :: tables.flatMap schemaTableStmts)

/-- One table of the data phase, bundling the results of the four
per-table queries of `_generate_data`: `COUNT(*)` (`total`), the column
name list, whether an identity column exists, and the fetched rows. -/
structure TableData where
  schemaName : String
  tableName : String
  total : Nat
  colNames : List String
  hasIdentity : Bool
  rows : List (List Value)
  deriving DecidableEq

/-- The batching loop bound of `_generate_data` line 287. -/
def batchSize : Nat := 400

/-- `range(0, len(rows), 400)` with slices (`_generate_data` lines
289-290): consecutive chunks of at most 400 rows. -/
def chunks400 {α : Type} : List α → List (List α)
  | [] => []
  | a :: rest => ((a :: rest).take batchSize) :: chunks400 (rest.drop (batchSize - 1))
  termination_by l => l.length
  decreasing_by simp [List.length_drop]; omega

/-- The statements of one batch (`_generate_data` lines 292-314): one
INSERT per row, then the `GO` batch separator. -/
def batchStmts (schemaName tableName : String) (colNames : List String)
    (batch : List (List Value)) : List Stmt :=
  batch.map (fun row =>
    Stmt.insertRow schemaName tableName (insertCols colNames) (insertVals row)) ++ [Stmt.go]

/-- The statements `_generate_data` writes for one table (lines
252-319): nothing when `COUNT(*)` is zero; otherwise a data comment, the
`SET IDENTITY_INSERT ... ON` toggle when the table has an identity
column, all batches, and the matching `OFF` toggle. -/
def tableDataStmts (t : TableData) : List Stmt :=
  if t.total = 0 then []
  else
    [Stmt.dataComment t.schemaName t.tableName t.total]
    ++ (if t.hasIdentity then [Stmt.setIdentityInsert t.schemaName t.tableName true] else [])
    ++ (chunks400 t.rows).flatMap (batchStmts t.schemaName t.tableName t.colNames)
    ++ (if t.hasIdentity then [Stmt.setIdentityInsert t.schemaName t.tableName false] else [])

/-- `_generate_data` (lines 230-327) as a function of the outcome of its
tables query, with the same banner-before-query shape as the schema
phase. -/
def generate_data (q : Option (List TableData)) : Bool × List Stmt :=
  match q with
  | none => (false, [Stmt.sectionBanner "DATOS DE LAS TABLAS"])
  | some tables =>
      (true, Stmt.sectionBanner "DATOS DE LAS TABLAS" :: tables.flatMap tableDataStmts)

/-- A log record: `self.logger.info` / `warning` / `error`.  Warnings
carry the fixed prefix of the corresponding Python message (the Python
text also appends the exception). -/
inductive LogEntry where
  | info (msg : String)
  | warning (msg : String)
  | error (msg : String)
  deriving DecidableEq

/-- One row of the default-constraints query of `_generate_defaults`
(lines 335-346). -/
structure DefaultRow where
  defName : String
  schemaName : String
  tableName : String
  colName : String
  definition : String
  deriving DecidableEq

/-- `_generate_defaults` (lines 330-366): a failed query (`none`) is
caught, logged as a warning and returns `False`; no rows means no
section at all; otherwise the banner and one ALTER TABLE per row. -/
def generate_defaults (q : Option (List DefaultRow)) : Bool × List Stmt × List LogEntry :=
  match q with
  | none => (false, [], [LogEntry.warning "Error generando DEFAULTs"])
  | some [] => (true, [], [])
  | some rows =>
      (true,
       Stmt.sectionBanner "DEFAULT CONSTRAINTS" ::
         rows.map (fun r => Stmt.addDefault r.defName r.schemaName r.tableName r.definition r.colName),
       [])

/-- One row of the index query of `_generate_indexes` (lines 375-397);
an SQL `NULL` aggregated column list is carried as the empty string (the
code guards with `if cols:`). -/
structure IndexRow where
  idxName : String
  schemaName : String
  tableName : String
  cols : String
  deriving DecidableEq

/-- `_generate_indexes` (lines 369-419): same failure shape as the other
extras; rows with an empty column list are skipped inside the section. -/
def generate_indexes (q : Option (List IndexRow)) : Bool × List Stmt × List LogEntry :=
  match q with
  | none => (false, [], [LogEntry.warning "Error generando índices"])
  | some [] => (true, [], [])
  | some rows =>
      (true,
       Stmt.sectionBanner "INDICES" ::
         (rows.filter (fun r => r.cols ≠ "")).map
           (fun r => Stmt.createIndex r.idxName r.schemaName r.tableName r.cols),
       [])

/-- One row of the procedures query of `_generate_stored_procedures`
(lines 427-436). -/
structure ProcRow where
  schemaName : String
  procName : String
  definition : String
  deriving DecidableEq

/-- `_generate_stored_procedures` (lines 422-455): banner, then per
procedure a drop-if-exists guard and the stored definition verbatim. -/
def generate_stored_procedures (q : Option (List ProcRow)) : Bool × List Stmt × List LogEntry :=
  match q with
  | none => (false, [], [LogEntry.warning "Error generando procedimientos"])
  | some [] => (true, [], [])
  | some rows =>
      (true,
       Stmt.sectionBanner "STORED PROCEDURES" ::
         rows.flatMap (fun r =>
           [Stmt.dropProcGuard r.schemaName r.procName, Stmt.rawDefinition r.definition]),
       [])

/-- One row of the foreign-key query of `_generate_foreign_keys` (lines
463-490): the catalog returns one row per column pair of each
constraint. -/
structure FKRow where
  fkName : String
  schemaName : String
  tableName : String
  colName : String
  refSchema : String
  refTable : String
  refCol : String
  deriving DecidableEq

/-- The grouping key of `fk_map` (`_generate_foreign_keys` line 499). -/
def fkKey (r : FKRow) : String × String × String × String × String :=
  (r.fkName, r.schemaName, r.tableName, r.refSchema, r.refTable)

/-- `fk_map.setdefault(key, []).append(...)` on one row: insertion-order
preserving grouping, appending the column pair to an existing group or
opening a new group at the end. -/
def addToGroups (groups : List ((String × String × String × String × String) × List (String × String)))
    (k : String × String × String × String × String) (v : String × String) :
    List ((String × String × String × String × String) × List (String × String)) :=
  match groups with
  | [] => [(k, [v])]
  | (k', vs) :: rest =>
      if k' = k then (k', vs ++ [v]) :: rest else (k', vs) :: addToGroups rest k v

/-- The full `fk_map` construction of `_generate_foreign_keys` lines
496-500 (a Python dict preserves insertion order). -/
def groupFks (rows : List FKRow) :
    List ((String × String × String × String × String) × List (String × String)) :=
  rows.foldl (fun g r => addToGroups g (fkKey r) (r.colName, r.refCol)) []

/-- The ALTER TABLE ... FOREIGN KEY statement of one grouped constraint
(`_generate_foreign_keys` lines 507-515). -/
def fkStmt (g : (String × String × String × String × String) × List (String × String)) : Stmt :=
  Stmt.addForeignKey g.1.1 g.1.2.1 g.1.2.2.1
    (String.intercalate ", " (g.2.map (fun p => "[" ++ p.1 ++ "]")))
    g.1.2.2.2.1 g.1.2.2.2.2
    (String.intercalate ", " (g.2.map (fun p => "[" ++ p.2 ++ "]")))

/-- `_generate_foreign_keys` (lines 458-521): same failure shape as the
other extras; otherwise the banner and one statement per grouped
constraint. -/
def generate_foreign_keys (q : Option (List FKRow)) : Bool × List Stmt × List LogEntry :=
  match q with
  | none => (false, [], [LogEntry.warning "Error generando FKs"])
  | some [] => (true, [], [])
  | some rows =>
      (true, Stmt.sectionBanner "FOREIGN KEYS" :: (groupFks rows).map fkStmt, [])

/-- One row of the triggers query of `_generate_triggers` (lines
529-542). -/
structure TriggerRow where
  schemaName : String
  tableName : String
  triggerName : String
  definition : String
  deriving DecidableEq

/-- `_generate_triggers` (lines 524-562): banner, then per trigger a
drop-if-exists guard and the stored definition verbatim; a failed
catalog query is caught, logged as a warning, and writes nothing. -/
def generate_triggers (q : Option (List TriggerRow)) : Bool × List Stmt × List LogEntry :=
  match q with
  | none => (false, [], [LogEntry.warning "Error generando TRIGGERS"])
  | some [] => (true, [], [])
  | some rows =>
      (true,
       Stmt.sectionBanner "TRIGGERS" ::
         rows.flatMap (fun r =>
           [Stmt.dropTriggerGuard r.schemaName r.triggerName, Stmt.rawDefinition r.definition]),
       [])

/-- The per-database configuration record (spec §3); loaded by the
out-of-scope configuration layer and read-only to the strategy.  A
missing credential is carried as the empty string, matching the Python
falsiness check `not db_config.user`. -/
structure DatabaseConfig where
  name : String
  dbType : String
  host : String
  port : Option Nat
  user : String
  password : String
  database : Option String
  enabled : Bool
  deriving DecidableEq

/-- Modelled from the spec: `BackupResult` lives in `src/models.py`,
which is not under `src/`; spec §3 describes it as `database_name`, a
`success` boolean, an optional `output_file` path and an optional
`error` message, so the two optional fields default to `none` when a
construction site omits them. -/
structure BackupResult where
  database_name : String
  success : Bool
  output_file : Option String := none
  error : Option String := none
  deriving DecidableEq

/-- `"$" + "\x7b" in s`: the unresolved-placeholder test of `backup`
line 35, as a substring check on the character list. -/
def hasPlaceholder (s : String) : Bool :=
  decide (List.IsInfix [Char.ofNat 36, Char.ofNat 123] s.data)

/-- `db_config.database or db_config.name` (`backup` line 21): Python
`or` falls through on `None` and on the empty string. -/
def databaseNameOf (cfg : DatabaseConfig) : String :=
  match cfg.database with
  | some d => if d = "" then cfg.name else d
  | none => cfg.name

/-- The environment of one `backup` invocation: the configuration, the
`.sql` path derived from the output file, whether `pyodbc.connect`
succeeds, and the outcome of each phase's catalog queries (`none`
models a raised, caught exception). -/
structure Env where
  config : DatabaseConfig
  scriptPath : String
  connectOk : Bool
  schemaTables : Option (List TableInfo)
  dataTables : Option (List TableData)
  defaults : Option (List DefaultRow)
  indexes : Option (List IndexRow)
  procedures : Option (List ProcRow)
  foreignKeys : Option (List FKRow)
  triggers : Option (List TriggerRow)
  deriving DecidableEq

/-- The observable outcome of one `backup` invocation: the returned
`BackupResult`, the script file content (`none` when the file was never
created; the strategy contains no file-removal call, so a created file
persists), whether a connection was attempted, and the warnings logged
by the extras phase. -/
structure RunOutcome where
  result : BackupResult
  file : Option (List Stmt)
  connectAttempted : Bool
  log : List LogEntry
  deriving DecidableEq

/-- The two header writes of `backup` lines 56-62: the comment block and
the `USE` statement. -/
def headerStmts (env : Env) : List Stmt :=
  [Stmt.header (databaseNameOf env.config) env.config.host,
   Stmt.useDb (databaseNameOf env.config)]

/-- `SQLServerBackupStrategy.backup` (lines 16-97): credential
validation, placeholder validation, connection, header, schema phase
(fatal on failure), data phase (fatal on failure), then the five extras
whose return values are ignored, and the success result carrying the
script path. -/
def backup (env : Env) : RunOutcome :=
  if env.config.user = "" ∨ env.config.password = "" then
    { result := { database_name := env.config.name, success := false,
                  error := some "Usuario o contraseña no configurados" },
      file := none, connectAttempted := false, log := [] }
  else if hasPlaceholder env.config.user ∨ hasPlaceholder env.config.password then
    { result := { database_name := env.config.name, success := false,
                  error := some "Variables de entorno no resueltas" },
      file := none, connectAttempted := false, log := [] }
  else if env.connectOk = false then
    { result := { database_name := env.config.name, success := false,
                  error := some "No se pudo conectar a SQL Server" },
      file := none, connectAttempted := true,
      log := [LogEntry.error "Error de conexión"] }
  else if (generate_schema env.schemaTables).1 = false then
    { result := { database_name := env.config.name, success := false,
                  error := some "Error generando estructura" },
      file := some (headerStmts env ++ (generate_schema env.schemaTables).2),
      connectAttempted := true,
      log := [LogEntry.error "Error en _generate_schema"] }
  else if (generate_data env.dataTables).1 = false then
    { result := { database_name := env.config.name, success := false,
                  error := some "Error generando datos" },
      file := some (headerStmts env ++ (generate_schema env.schemaTables).2
                    ++ (generate_data env.dataTables).2),
      connectAttempted := true,
      log := [LogEntry.error "Error en _generate_data"] }
  else
    { result := { database_name := env.config.name, success := true,
                  output_file := some env.scriptPath },
      file := some (headerStmts env ++ (generate_schema env.schemaTables).2
                    ++ (generate_data env.dataTables).2
                    ++ (generate_defaults env.defaults).2.1
                    ++ (generate_indexes env.indexes).2.1
                    ++ (generate_stored_procedures env.procedures).2.1
                    ++ (generate_foreign_keys env.foreignKeys).2.1
                    ++ (generate_triggers env.triggers).2.1),
      connectAttempted := true,
      log := (generate_defaults env.defaults).2.2 ++ (generate_indexes env.indexes).2.2
             ++ (generate_stored_procedures env.procedures).2.2
             ++ (generate_foreign_keys env.foreignKeys).2.2
             ++ (generate_triggers env.triggers).2.2 }

/-- The script content of an outcome: empty when the file was never
created. -/
def scriptOf (o : RunOutcome) : List Stmt := o.file.getD []

/-- A statement is a foreign-key ALTER TABLE. -/
def isFKStmt : Stmt → Bool
  | .addForeignKey _ _ _ _ _ _ _ => true
  | _ => false

/-- A statement is a CREATE TABLE. -/
def isCreateStmt : Stmt → Bool
  | .createTable _ _ _ => true
  | _ => false

/-- A statement belongs to the data section: its banner, a per-table
data comment, an identity toggle, an INSERT, or a batch separator. -/
def inDataSection : Stmt → Bool
  | .sectionBanner t => t == "DATOS DE LAS TABLAS"
  | .dataComment _ _ _ => true
  | .setIdentityInsert _ _ _ => true
  | .insertRow _ _ _ _ => true
  | .go => true
  | _ => false

/-- A statement the header block can contain. -/
def headerSectionStmt : Stmt → Bool
  | .header _ _ => true
  | .useDb _ => true
  | _ => false

/-- A statement the schema section can contain. -/
def schemaSectionStmt : Stmt → Bool
  | .sectionBanner t => t == "ESTRUCTURA DE LA BASE DE DATOS"
  | .tableComment _ _ => true
  | .dropTableGuard _ _ => true
  | .createTable _ _ _ => true
  | .addPrimaryKey _ _ _ _ => true
  | _ => false

/-- A statement the defaults section can contain. -/
def defaultsSectionStmt : Stmt → Bool
  | .sectionBanner t => t == "DEFAULT CONSTRAINTS"
  | .addDefault _ _ _ _ _ => true
  | _ => false

/-- A statement the index section can contain. -/
def indexesSectionStmt : Stmt → Bool
  | .sectionBanner t => t == "INDICES"
  | .createIndex _ _ _ _ => true
  | _ => false

/-- A statement the stored-procedures section can contain. -/
def procsSectionStmt : Stmt → Bool
  | .sectionBanner t => t == "STORED PROCEDURES"
  | .dropProcGuard _ _ => true
  | .rawDefinition _ => true
  | _ => false

/-- A statement the foreign-keys section can contain. -/
def fkSectionStmt : Stmt → Bool
  | .sectionBanner t => t == "FOREIGN KEYS"
  | .addForeignKey _ _ _ _ _ _ _ => true
  | _ => false

/-- A statement the triggers section can contain. -/
def triggersSectionStmt : Stmt → Bool
  | .sectionBanner t => t == "TRIGGERS"
  | .dropTriggerGuard _ _ => true
  | .rawDefinition _ => true
  | _ => false

lemma mem_headerStmts (env : Env) (s : Stmt) (hs : s ∈ headerStmts env) :
    headerSectionStmt s = true := by
  rw [headerStmts] at hs
  simp at hs
  rcases hs with h | h <;> subst h <;> rfl

lemma mem_generate_schema (q : Option (List TableInfo)) (s : Stmt)
    (hs : s ∈ (generate_schema q).2) : schemaSectionStmt s = true := by
  cases q with
  | none =>
    simp [generate_schema] at hs
    subst hs; decide
  | some tables =>
    simp [generate_schema] at hs
    rcases hs with h | ⟨t, _, hst⟩
    · subst h; decide
    · rw [schemaTableStmts] at hst
      rcases hpk : t.primaryKey with _ | ⟨pkName, cols⟩ <;> rw [hpk] at hst
      · simp at hst
        rcases hst with h | h | h <;> subst h <;> rfl
      · by_cases hc : cols = ""
        · simp [hc] at hst
          rcases hst with h | h | h <;> subst h <;> rfl
        · simp [hc] at hst
          rcases hst with h | h | h | h <;> subst h <;> rfl

lemma mem_batchStmts (sch tb : String) (cns : List String) (batch : List (List Value))
    (s : Stmt) (hs : s ∈ batchStmts sch tb cns batch) : inDataSection s = true := by
  rw [batchStmts] at hs
  rcases List.mem_append.mp hs with h | h
  · obtain ⟨row, _, hrow⟩ := List.mem_map.mp h
    rw [← hrow]; rfl
  · rw [List.mem_singleton.mp h]; rfl

lemma mem_tableDataStmts (t : TableData) (s : Stmt) (hs : s ∈ tableDataStmts t) :
    inDataSection s = true := by
  rw [tableDataStmts] at hs
  by_cases h0 : t.total = 0
  · simp [h0] at hs
  · by_cases hid : t.hasIdentity <;> simp [h0, hid] at hs
    · rcases hs with h | h | ⟨batch, _, hb⟩ | h
      · subst h; rfl
      · subst h; rfl
      · exact mem_batchStmts _ _ _ _ _ hb
      · subst h; rfl
    · rcases hs with h | ⟨batch, _, hb⟩
      · subst h; rfl
      · exact mem_batchStmts _ _ _ _ _ hb

lemma mem_generate_data (q : Option (List TableData)) (s : Stmt)
    (hs : s ∈ (generate_data q).2) : inDataSection s = true := by
  cases q with
  | none =>
    simp [generate_data] at hs
    subst hs; decide
  | some tables =>
    simp [generate_data] at hs
    rcases hs with h | ⟨t, _, hst⟩
    · subst h; decide
    · exact mem_tableDataStmts _ _ hst

lemma mem_generate_defaults (q : Option (List DefaultRow)) (s : Stmt)
    (hs : s ∈ (generate_defaults q).2.1) : defaultsSectionStmt s = true := by
  rcases q with _ | (_ | ⟨r, rows⟩)
  · simp [generate_defaults] at hs
  · simp [generate_defaults] at hs
  · simp only [generate_defaults] at hs
    rcases List.mem_cons.mp hs with h | h
    · subst h; decide
    · obtain ⟨x, _, hx⟩ := List.mem_map.mp h
      subst hx; rfl

lemma mem_generate_indexes (q : Option (List IndexRow)) (s : Stmt)
    (hs : s ∈ (generate_indexes q).2.1) : indexesSectionStmt s = true := by
  rcases q with _ | (_ | ⟨r, rows⟩)
  · simp [generate_indexes] at hs
  · simp [generate_indexes] at hs
  · simp only [generate_indexes] at hs
    rcases List.mem_cons.mp hs with h | h
    · subst h; decide
    · obtain ⟨x, _, hx⟩ := List.mem_map.mp h
      subst hx; rfl

lemma mem_generate_stored_procedures (q : Option (List ProcRow)) (s : Stmt)
    (hs : s ∈ (generate_stored_procedures q).2.1) : procsSectionStmt s = true := by
  rcases q with _ | (_ | ⟨r, rows⟩)
  · simp [generate_stored_procedures] at hs
  · simp [generate_stored_procedures] at hs
  · simp only [generate_stored_procedures] at hs
    rcases List.mem_cons.mp hs with h | h
    · subst h; decide
    · obtain ⟨x, _, hx⟩ := List.mem_flatMap.mp h
      rcases List.mem_cons.mp hx with h2 | h2
      · subst h2; rfl
      · rw [List.mem_singleton.mp h2]; rfl

lemma mem_generate_foreign_keys (q : Option (List FKRow)) (s : Stmt)
    (hs : s ∈ (generate_foreign_keys q).2.1) : fkSectionStmt s = true := by
  rcases q with _ | (_ | ⟨r, rows⟩)
  · simp [generate_foreign_keys] at hs
  · simp [generate_foreign_keys] at hs
  · simp only [generate_foreign_keys] at hs
    rcases List.mem_cons.mp hs with h | h
    · subst h; decide
    · obtain ⟨g, _, hg⟩ := List.mem_map.mp h
      subst hg; rfl

lemma mem_generate_triggers (q : Option (List TriggerRow)) (s : Stmt)
    (hs : s ∈ (generate_triggers q).2.1) : triggersSectionStmt s = true := by
  rcases q with _ | (_ | ⟨r, rows⟩)
  · simp [generate_triggers] at hs
  · simp [generate_triggers] at hs
  · simp only [generate_triggers] at hs
    rcases List.mem_cons.mp hs with h | h
    · subst h; decide
    · obtain ⟨x, _, hx⟩ := List.mem_flatMap.mp h
      rcases List.mem_cons.mp hx with h2 | h2
      · subst h2; rfl
      · rw [List.mem_singleton.mp h2]; rfl

/-! ## Claim C4 -/

/-- Claim C4: a string value is emitted as the value wrapped in single
quotes with each embedded single quote doubled and every other character
kept as a singleton (no other character altered), and a standard SQL
literal parser maps the emitted literal back to the original string
exactly. -/
theorem string_literal_round_trip (s : String) :
    renderValue (Value.str s) = sq ++ escapeQuotes s ++ sq ∧
    (escapeQuotes s).data =
      (s.data.map (fun c => if c = quoteChar then [quoteChar, quoteChar] else [c])).flatten ∧
    parseSqlStringLit (renderValue (Value.str s)) = some s := by
  refine ⟨rfl, escQ_eq_join s.data, ?_⟩
  have hdata : (renderValue (Value.str s)).data = quoteChar :: (escQ s.data ++ [quoteChar]) := by
    show (sq ++ escapeQuotes s ++ sq).data = _
    simp [sq, escapeQuotes]
  rw [parseSqlStringLit, hdata]
  simp [parseQuotedBody_escQ s.data]

/-! ## Claim C5 -/

/-- Claim C5: a zero-length binary value is emitted as the literal
`NULL`; a non-empty binary value is emitted as `0x` followed by the hex
encoding of the bytes, every hex character is a decimal digit or a
lowercase `a`-`f`, and decoding the hex characters reproduces the
original bytes exactly. -/
theorem binary_literal_round_trip (bs : List Nat) (h : ∀ b ∈ bs, b < 256) :
    (bs = [] → renderValue (Value.bytes bs) = "NULL") ∧
    (bs ≠ [] → renderValue (Value.bytes bs) = "0x" ++ hexString bs) ∧
    hexDecode (hexChars bs) = some bs ∧
    (∀ c ∈ hexChars bs,
      (48 ≤ c.toNat ∧ c.toNat ≤ 57) ∨ (97 ≤ c.toNat ∧ c.toNat ≤ 102)) := by
  refine ⟨?_, ?_, hexDecode_hexChars bs h, ?_⟩
  · intro he; subst he; rfl
  · intro hne
    have : bs.isEmpty = false := by
      cases bs with
      | nil => exact absurd rfl hne
      | cons a l => rfl
    simp [renderValue, this]
  · intro c hc
    induction bs with
    | nil => simp [hexChars] at hc
    | cons b rest ih =>
      have hb : b < 256 := h b (List.mem_cons_self _ _)
      rw [hexChars, List.mem_cons, List.mem_cons] at hc
      rcases hc with hc | hc | hc
      · subst hc
        exact hexDigit_lower _ (Nat.div_lt_of_lt_mul (by omega))
      · subst hc
        exact hexDigit_lower _ (Nat.mod_lt _ (by omega))
      · exact ih (fun x hx => h x (List.mem_cons_of_mem _ hx)) hc

/-- Known-value check for `binary_literal_round_trip`: the bytes
`[0, 171, 255]` satisfy the bound and the theorem's conclusions hold for
them (in particular the literal is `0x00abff`). -/
theorem binary_literal_round_trip_witness :
    ((([0, 171, 255] : List Nat) = [] → renderValue (Value.bytes [0, 171, 255]) = "NULL") ∧
     (([0, 171, 255] : List Nat) ≠ [] →
        renderValue (Value.bytes [0, 171, 255]) = "0x" ++ hexString [0, 171, 255]) ∧
     hexDecode (hexChars [0, 171, 255]) = some [0, 171, 255] ∧
     (∀ c ∈ hexChars [0, 171, 255],
        (48 ≤ c.toNat ∧ c.toNat ≤ 57) ∨ (97 ≤ c.toNat ∧ c.toNat ≤ 102))) ∧
    renderValue (Value.bytes []) = "NULL" ∧
    renderValue (Value.bytes [0, 171, 255]) = "0x00abff" := by
  refine ⟨binary_literal_round_trip [0, 171, 255] (by decide), rfl, rfl⟩

/-! ## Claim C2 -/

/-- Counterexample to claim C2: the data emitter does not fail closed on
a value whose type matches none of the recognized kinds — the Python
`else` branch renders it as `str(v)`, so the default string rendering is
emitted verbatim as an unescaped, unquoted literal, and the INSERT value
list for a row holding such a value embeds that raw text. -/
theorem unrecognized_value_emitted_cex :
    renderValue (Value.unknown "0); DROP TABLE [Users]; --") = "0); DROP TABLE [Users]; --" ∧
    insertVals [Value.int 1, Value.unknown "0); DROP TABLE [Users]; --"] =
      "1, 0); DROP TABLE [Users]; --" := ⟨rfl, rfl⟩

/-- Claim C2 (amended): a row value whose type is not one of the
recognized kinds is not rejected — the emitter renders it as its default
string rendering, verbatim and unquoted, exactly like a recognized
scalar, and the data phase still reports success for any table
contents. -/
theorem unrecognized_value_raw (r : String) (ts : List TableData) :
    renderValue (Value.unknown r) = r ∧ (generate_data (some ts)).1 = true :=
  ⟨rfl, rfl⟩

/-! ## Claim C1 -/

/-- A concrete identity column whose catalog-reported seed and increment
(from `sys.identity_columns`, which the schema query never reads) are 5
and 2. -/
def seedFiveCol : ColumnMeta :=
  { name := "Id", typeName := "int", maxLength := 4, precision := 10, scale := 0,
    isNullable := false, isIdentity := true }

/-- Counterexample to claim C1: for an identity column whose catalog
seed and increment are 5 and 2, the emitted column line carries the
fixed annotation ` IDENTITY(1,1)`, not ` IDENTITY(5,2)` — the generator
never reproduces the reported seed/increment. -/
theorem identity_seed_cex :
    seedFiveCol.isIdentity = true ∧
    identityStr seedFiveCol = " IDENTITY(1,1)" ∧
    columnLine seedFiveCol "," = "    [Id] int IDENTITY(1,1) NOT NULL," ∧
    identityStr seedFiveCol ≠
      " IDENTITY(" ++ toString (5 : Int) ++ "," ++ toString (2 : Int) ++ ")" := by
  refine ⟨rfl, rfl, rfl, by decide⟩

/-- Claim C1 (amended): the CREATE TABLE column line annotates every
identity column with the fixed text ` IDENTITY(1,1)` regardless of the
catalog-reported seed and increment, and leaves non-identity columns
unannotated. -/
theorem identity_annotation_fixed (c : ColumnMeta) (comma : String) :
    columnLine c comma =
      "    [" ++ c.name ++ "] " ++ typeStr c ++
        (if c.isIdentity then " IDENTITY(1,1)" else "") ++ nullStr c ++ comma ∧
    identityStr c = (if c.isIdentity then " IDENTITY(1,1)" else "") := by
  constructor <;> rfl

/-! ## Claim C6 -/

/-- A statement is one of the two `SET IDENTITY_INSERT` toggles. -/
def isToggleStmt : Stmt → Bool
  | .setIdentityInsert _ _ _ => true
  | _ => false

/-- Claim C6: for a table with an identity column and a non-zero row
count, the emitted data block is exactly the data comment, the single
`SET IDENTITY_INSERT ... ON`, all batches (which contain only INSERTs
and `GO` separators, never a toggle), and the single closing
`SET IDENTITY_INSERT ... OFF` — so each toggle appears exactly once,
bracketing every batch, independent of the row count and batch size. -/
theorem identity_toggles_once (t : TableData) (hid : t.hasIdentity = true)
    (hn : t.total ≠ 0) :
    ∃ middle,
      tableDataStmts t =
        Stmt.dataComment t.schemaName t.tableName t.total ::
        Stmt.setIdentityInsert t.schemaName t.tableName true ::
        (middle ++ [Stmt.setIdentityInsert t.schemaName t.tableName false]) ∧
      (∀ s ∈ middle, isToggleStmt s = false) ∧
      ((tableDataStmts t).filter isToggleStmt).length = 2 := by
  have hmid : ∀ s ∈ (chunks400 t.rows).flatMap (batchStmts t.schemaName t.tableName t.colNames),
      isToggleStmt s = false := by
    intro s hs
    rw [List.mem_flatMap] at hs
    obtain ⟨batch, _, hsb⟩ := hs
    rw [batchStmts, List.mem_append] at hsb
    rcases hsb with hsb | hsb
    · rw [List.mem_map] at hsb
      obtain ⟨row, _, hrow⟩ := hsb
      rw [← hrow]; rfl
    · rw [List.mem_singleton] at hsb
      rw [hsb]; rfl
  have hdec : tableDataStmts t =
      Stmt.dataComment t.schemaName t.tableName t.total ::
      Stmt.setIdentityInsert t.schemaName t.tableName true ::
      ((chunks400 t.rows).flatMap (batchStmts t.schemaName t.tableName t.colNames) ++
        [Stmt.setIdentityInsert t.schemaName t.tableName false]) := by
    rw [tableDataStmts]
    simp [hn, hid]
  refine ⟨_, hdec, hmid, ?_⟩
  rw [hdec]
  have hfil : ((chunks400 t.rows).flatMap
      (batchStmts t.schemaName t.tableName t.colNames)).filter isToggleStmt = [] := by
    rw [List.filter_eq_nil_iff]
    intro a ha
    simp [hmid a ha]
  simp [List.filter_cons, List.filter_append, hfil, isToggleStmt]

/-- Known-value check for `identity_toggles_once`: the `Orders` table of
spec §8 with two rows. -/
def ordersTable : TableData :=
  { schemaName := "dbo", tableName := "Orders", total := 2,
    colNames := ["OrderId", "CustomerId", "Total"], hasIdentity := true,
    rows := [[Value.int 1, Value.str "A", Value.scalar "10.50"],
             [Value.int 2, Value.str "B", Value.scalar "20.00"]] }

/-- Witness for `identity_toggles_once` at the concrete `Orders` table. -/
theorem identity_toggles_once_witness :
    ordersTable.hasIdentity = true ∧ ordersTable.total ≠ 0 ∧
    (∃ middle,
      tableDataStmts ordersTable =
        Stmt.dataComment ordersTable.schemaName ordersTable.tableName ordersTable.total ::
        Stmt.setIdentityInsert ordersTable.schemaName ordersTable.tableName true ::
        (middle ++ [Stmt.setIdentityInsert ordersTable.schemaName ordersTable.tableName false]) ∧
      (∀ s ∈ middle, isToggleStmt s = false) ∧
      ((tableDataStmts ordersTable).filter isToggleStmt).length = 2) :=
  ⟨rfl, by decide, identity_toggles_once ordersTable rfl (by decide)⟩

/-! ## Claim C7 -/

lemma no_fk_of_pre (s : Stmt)
    (h : headerSectionStmt s = true ∨ schemaSectionStmt s = true ∨ inDataSection s = true ∨
         defaultsSectionStmt s = true ∨ indexesSectionStmt s = true ∨
         procsSectionStmt s = true) :
    isFKStmt s = false := by
  cases s <;> simp_all [headerSectionStmt, schemaSectionStmt, inDataSection,
    defaultsSectionStmt, indexesSectionStmt, procsSectionStmt, isFKStmt]

lemma not_create_not_data_of_post (s : Stmt)
    (h : fkSectionStmt s = true ∨ triggersSectionStmt s = true) :
    isCreateStmt s = false ∧ inDataSection s = false := by
  cases s with
  | sectionBanner t =>
    refine ⟨rfl, ?_⟩
    simp only [fkSectionStmt, triggersSectionStmt, beq_iff_eq] at h
    rcases h with h | h <;> subst h <;> decide
  | _ => simp_all [fkSectionStmt, triggersSectionStmt, isCreateStmt, inDataSection]

/-- The file content after any run is one of four prefixes of the full
script (never created, header+schema, header+schema+data, or the full
success script). -/
lemma backup_file_cases (env : Env) :
    (backup env).file = none ∨
    (backup env).file = some (headerStmts env ++ (generate_schema env.schemaTables).2) ∨
    (backup env).file = some (headerStmts env ++ (generate_schema env.schemaTables).2
      ++ (generate_data env.dataTables).2) ∨
    (backup env).file = some (headerStmts env ++ (generate_schema env.schemaTables).2
      ++ (generate_data env.dataTables).2
      ++ (generate_defaults env.defaults).2.1 ++ (generate_indexes env.indexes).2.1
      ++ (generate_stored_procedures env.procedures).2.1
      ++ (generate_foreign_keys env.foreignKeys).2.1
      ++ (generate_triggers env.triggers).2.1) := by
  unfold backup
  split_ifs <;> simp

/-- Claim C7: in document order, the generated script always splits into
a prefix containing no foreign-key statement and a suffix containing no
CREATE TABLE and nothing of the data section — so every foreign-key
ALTER TABLE appears after every CREATE TABLE (owning and referenced
alike) and after the entire data-INSERT section. -/
theorem fk_after_tables_and_data (env : Env) :
    ∃ A B, scriptOf (backup env) = A ++ B ∧
      (∀ s ∈ A, isFKStmt s = false) ∧
      (∀ s ∈ B, isCreateStmt s = false ∧ inDataSection s = false) := by
  have hpre2 : ∀ s ∈ headerStmts env ++ (generate_schema env.schemaTables).2,
      isFKStmt s = false := by
    intro s hs
    rcases List.mem_append.mp hs with h2 | h2
    · exact no_fk_of_pre s (Or.inl (mem_headerStmts env s h2))
    · exact no_fk_of_pre s (Or.inr (Or.inl (mem_generate_schema _ s h2)))
  have hpre3 : ∀ s ∈ headerStmts env ++ (generate_schema env.schemaTables).2
      ++ (generate_data env.dataTables).2, isFKStmt s = false := by
    intro s hs
    rcases List.mem_append.mp hs with h2 | h2
    · exact hpre2 s h2
    · exact no_fk_of_pre s (Or.inr (Or.inr (Or.inl (mem_generate_data _ s h2))))
  rcases backup_file_cases env with h | h | h | h
  · exact ⟨[], [], by simp [scriptOf, h], by simp, by simp⟩
  · exact ⟨_, [], by simp [scriptOf, h], hpre2, by simp⟩
  · exact ⟨_, [], by simp [scriptOf, h], hpre3, by simp⟩
  · refine ⟨headerStmts env ++ (generate_schema env.schemaTables).2
      ++ (generate_data env.dataTables).2
      ++ (generate_defaults env.defaults).2.1 ++ (generate_indexes env.indexes).2.1
      ++ (generate_stored_procedures env.procedures).2.1,
      (generate_foreign_keys env.foreignKeys).2.1 ++ (generate_triggers env.triggers).2.1,
      ?_, ?_, ?_⟩
    · rw [scriptOf, h]
      simp [List.append_assoc]
    · intro s hs
      rcases List.mem_append.mp hs with h2 | h2
      · rcases List.mem_append.mp h2 with h3 | h3
        · rcases List.mem_append.mp h3 with h4 | h4
          · exact hpre3 s h4
          · exact no_fk_of_pre s (Or.inr (Or.inr (Or.inr (Or.inl
              (mem_generate_defaults _ s h4)))))
        · exact no_fk_of_pre s (Or.inr (Or.inr (Or.inr (Or.inr (Or.inl
            (mem_generate_indexes _ s h3))))))
      · exact no_fk_of_pre s (Or.inr (Or.inr (Or.inr (Or.inr (Or.inr
          (mem_generate_stored_procedures _ s h2))))))
    · intro s hs
      rcases List.mem_append.mp hs with h2 | h2
      · exact not_create_not_data_of_post s (Or.inl (mem_generate_foreign_keys _ s h2))
      · exact not_create_not_data_of_post s (Or.inr (mem_generate_triggers _ s h2))

/-! ## Claim C8 -/

/-- Claim C8: a configuration whose user or password still contains the
unresolved placeholder token makes `backup` return `success = false`
from the validation step, with no connection attempted and no script
file created. -/
theorem placeholder_fails_validating (env : Env)
    (h : hasPlaceholder env.config.user = true ∨ hasPlaceholder env.config.password = true) :
    (backup env).result.success = false ∧
    (backup env).connectAttempted = false ∧
    (backup env).file = none := by
  unfold backup
  by_cases h1 : env.config.user = "" ∨ env.config.password = ""
  · rw [if_pos h1]
    exact ⟨rfl, rfl, rfl⟩
  · rw [if_neg h1, if_pos h]
    exact ⟨rfl, rfl, rfl⟩

/-- An otherwise healthy environment whose user credential is the
unresolved placeholder `$\x7bDB_USER\x7d`. -/
def placeholderEnv : Env :=
  { config := { name := "VCash", dbType := "sqlserver", host := "srv", port := some 1433,
                user := "$\x7bDB_USER\x7d", password := "pw", database := some "VCash",
                enabled := true },
    scriptPath := "VCash.sql", connectOk := true, schemaTables := some [],
    dataTables := some [], defaults := some [], indexes := some [],
    procedures := some [], foreignKeys := some [], triggers := some [] }

/-- Witness for `placeholder_fails_validating` at `placeholderEnv`. -/
theorem placeholder_fails_validating_witness :
    (backup placeholderEnv).result.success = false ∧
    (backup placeholderEnv).connectAttempted = false ∧
    (backup placeholderEnv).file = none :=
  placeholder_fails_validating placeholderEnv (Or.inl (by decide))

/-! ## Claim C10 -/

/-- Claim C10 (spec-modelled `BackupResult` defaults): on every path of
`backup`, the returned result has a non-`none` `output_file` exactly
when `success` is `true` — every failure constructor omits the field and
the single success constructor sets it to the script path. -/
theorem output_file_iff_success (env : Env) :
    ((backup env).result.output_file).isSome = (backup env).result.success := by
  unfold backup
  split_ifs <;> rfl

/-! ## Claim C3 -/

/-- An environment that passes validation and connects, but whose
schema-phase tables query raises. -/
def schemaFailEnv : Env :=
  { config := { name := "VCash", dbType := "sqlserver", host := "srv", port := some 1433,
                user := "sa", password := "pw", database := some "VCash", enabled := true },
    scriptPath := "VCash.sql", connectOk := true, schemaTables := none,
    dataTables := some [], defaults := some [], indexes := some [],
    procedures := some [], foreignKeys := some [], triggers := some [] }

/-- Counterexample to claim C3: when the schema phase fails after the
script file was created, `backup` returns the `success = false` result
while the partially written file (header, USE statement, and the schema
banner) is still in place — the strategy contains no removal of the
partial artifact. -/
theorem partial_file_not_removed_cex :
    (backup schemaFailEnv).result.success = false ∧
    (backup schemaFailEnv).result.error = some "Error generando estructura" ∧
    (backup schemaFailEnv).file =
      some [Stmt.header "VCash" "srv", Stmt.useDb "VCash",
            Stmt.sectionBanner "ESTRUCTURA DE LA BASE DE DATOS"] := by
  refine ⟨?_, ?_, ?_⟩ <;> decide

/-- Claim C3 (amended): a partially written script file is never
removed — every failure that occurs after the file was created (schema
phase or data phase) returns `success = false` with the partial file
left in place. -/
theorem partial_file_left_in_place (env : Env)
    (h1 : ¬(env.config.user = "" ∨ env.config.password = ""))
    (h2 : ¬(hasPlaceholder env.config.user = true ∨ hasPlaceholder env.config.password = true))
    (hc : env.connectOk = true)
    (hfail : env.schemaTables = none ∨ env.dataTables = none) :
    (backup env).result.success = false ∧ (backup env).file.isSome = true := by
  unfold backup
  rw [if_neg h1, if_neg h2, if_neg (by simp [hc] : ¬(env.connectOk = false))]
  cases hst : env.schemaTables with
  | none => simp [generate_schema]
  | some ts =>
    rcases hfail with h | h
    · rw [hst] at h
      exact absurd h (by simp)
    · simp [h, generate_schema, generate_data]

/-- Witness for `partial_file_left_in_place` at `schemaFailEnv`. -/
theorem partial_file_left_in_place_witness :
    (backup schemaFailEnv).result.success = false ∧
    (backup schemaFailEnv).file.isSome = true :=
  partial_file_left_in_place schemaFailEnv (by decide) (by decide) rfl (Or.inl rfl)

/-! ## Claim C9 -/

lemma no_trigger_banner_of (s : Stmt)
    (h : headerSectionStmt s = true ∨ schemaSectionStmt s = true ∨ inDataSection s = true ∨
         defaultsSectionStmt s = true ∨ indexesSectionStmt s = true ∨
         procsSectionStmt s = true ∨ fkSectionStmt s = true) :
    s ≠ Stmt.sectionBanner "TRIGGERS" := by
  intro hEq
  subst hEq
  exact absurd h (by decide)

/-- The success-path form of `backup`. -/
lemma backup_success_form (env : Env)
    (h1 : ¬(env.config.user = "" ∨ env.config.password = ""))
    (h2 : ¬(hasPlaceholder env.config.user = true ∨ hasPlaceholder env.config.password = true))
    (hc : env.connectOk = true)
    (hts : (generate_schema env.schemaTables).1 = true)
    (hds : (generate_data env.dataTables).1 = true) :
    backup env =
      { result := { database_name := env.config.name, success := true,
                    output_file := some env.scriptPath },
        file := some (headerStmts env ++ (generate_schema env.schemaTables).2
                      ++ (generate_data env.dataTables).2
                      ++ (generate_defaults env.defaults).2.1
                      ++ (generate_indexes env.indexes).2.1
                      ++ (generate_stored_procedures env.procedures).2.1
                      ++ (generate_foreign_keys env.foreignKeys).2.1
                      ++ (generate_triggers env.triggers).2.1),
        connectAttempted := true,
        log := (generate_defaults env.defaults).2.2 ++ (generate_indexes env.indexes).2.2
               ++ (generate_stored_procedures env.procedures).2.2
               ++ (generate_foreign_keys env.foreignKeys).2.2
               ++ (generate_triggers env.triggers).2.2 } := by
  unfold backup
  rw [if_neg h1, if_neg h2, if_neg (by simp [hc] : ¬(env.connectOk = false)),
      if_neg (by simp [hts] : ¬((generate_schema env.schemaTables).1 = false)),
      if_neg (by simp [hds] : ¬((generate_data env.dataTables).1 = false))]

/-- Claim C9: when validation, connection, schema phase and data phase
all succeed but the triggers catalog query fails, `backup` still returns
`success = true`, the log contains the trigger-generation warning, and
the script contains no TRIGGERS section banner. -/
theorem trigger_failure_nonfatal (env : Env)
    (h1 : ¬(env.config.user = "" ∨ env.config.password = ""))
    (h2 : ¬(hasPlaceholder env.config.user = true ∨ hasPlaceholder env.config.password = true))
    (hc : env.connectOk = true)
    (hs : env.schemaTables.isSome = true) (hd : env.dataTables.isSome = true)
    (ht : env.triggers = none) :
    (backup env).result.success = true ∧
    LogEntry.warning "Error generando TRIGGERS" ∈ (backup env).log ∧
    ∀ s ∈ scriptOf (backup env), s ≠ Stmt.sectionBanner "TRIGGERS" := by
  obtain ⟨ts, hts⟩ := Option.isSome_iff_exists.mp hs
  obtain ⟨ds, hds⟩ := Option.isSome_iff_exists.mp hd
  rw [backup_success_form env h1 h2 hc (by rw [hts]; rfl) (by rw [hds]; rfl)]
  refine ⟨rfl, ?_, ?_⟩
  · rw [ht]
    simp [generate_triggers]
  · intro s hmem
    rw [scriptOf] at hmem
    simp only [Option.getD_some, ht, List.append_assoc, List.mem_append] at hmem
    rcases hmem with h3 | h3 | h3 | h3 | h3 | h3 | h3 | h3
    · exact no_trigger_banner_of s (Or.inl (mem_headerStmts env s h3))
    · exact no_trigger_banner_of s (Or.inr (Or.inl (mem_generate_schema _ s h3)))
    · exact no_trigger_banner_of s (Or.inr (Or.inr (Or.inl (mem_generate_data _ s h3))))
    · exact no_trigger_banner_of s (Or.inr (Or.inr (Or.inr (Or.inl
        (mem_generate_defaults _ s h3)))))
    · exact no_trigger_banner_of s (Or.inr (Or.inr (Or.inr (Or.inr (Or.inl
        (mem_generate_indexes _ s h3))))))
    · exact no_trigger_banner_of s (Or.inr (Or.inr (Or.inr (Or.inr (Or.inr (Or.inl
        (mem_generate_stored_procedures _ s h3)))))))
    · exact no_trigger_banner_of s (Or.inr (Or.inr (Or.inr (Or.inr (Or.inr (Or.inr
        (mem_generate_foreign_keys _ s h3)))))))
    · simp [generate_triggers] at h3

/-- An environment identical to a healthy run except that the triggers
catalog query raises. -/
def triggersFailEnv : Env :=
  { config := { name := "VCash", dbType := "sqlserver", host := "srv", port := some 1433,
                user := "sa", password := "pw", database := some "VCash", enabled := true },
    scriptPath := "VCash.sql", connectOk := true,
    schemaTables := some [], dataTables := some [], defaults := some [], indexes := some [],
    procedures := some [], foreignKeys := some [], triggers := none }

/-- Witness for `trigger_failure_nonfatal` at `triggersFailEnv`. -/
theorem trigger_failure_nonfatal_witness :
    (backup triggersFailEnv).result.success = true ∧
    LogEntry.warning "Error generando TRIGGERS" ∈ (backup triggersFailEnv).log ∧
    ∀ s ∈ scriptOf (backup triggersFailEnv), s ≠ Stmt.sectionBanner "TRIGGERS" :=
  trigger_failure_nonfatal triggersFailEnv (by decide) (by decide) rfl rfl rfl rfl

end DailyBackup
